import Mathlib

/-!
Verification development for the decision-and-control pipeline of the
`real-agent-architecture` repository.

Each definition is a shallow embedding of the corresponding Python function,
translated from the source file named in its doc comment.  External
collaborators (the text-generation provider, the embedding provider, the
vector store, action adapters) are modelled as explicit inputs: a blocking
call that can either return a value or raise is an `Except String _` value
(`.error` models a raised exception), and an adapter that is invoked
repeatedly is a function from the attempt index to its outcome.
Python floats are modelled as rationals (`ℚ`).
-/

namespace RealAgent

/-! ### Data model: `src/agent/decision_engine.py`, `src/rag/evidence.py`,
`src/tools/base.py`, `src/agent/state.py` -/

/-- The `Decision` enum of `src/agent/decision_engine.py` (lines 23-29). -/
inductive Decision where
  | RETRIEVE
  | REASON_ONLY
  | USE_TOOL
  | CLARIFY
  | ESCALATE
deriving DecidableEq, Repr

/-- The `DecisionOutput` dataclass of `src/agent/decision_engine.py`
(lines 32-40).  `escalation_reason` defaults to `None`. -/
structure DecisionOutput where
  decision : Decision
  confidence : ℚ
  reasoning : String
  required_tools : List String
  retrieval_needed : Bool
  escalation_reason : Option String := none
deriving DecidableEq, Repr

/-- The `Evidence` dataclass of `src/rag/evidence.py` (lines 11-23).
The free-form `metadata` dict is represented by the one field the reranker
reads from it: `updated_at_days` models `metadata["updated_at"]` as the age
in whole days relative to the (fixed) clock at scoring time; `none` models
a missing or unparsable `updated_at` entry.  The `retrieved_at` timestamp
is not carried since no scored computation reads it. -/
structure Evidence where
  source_id : String
  doc_title : String
  doc_type : String
  chunk_text : String
  score : ℚ
  chunk_index : Nat
  source_file : String
  updated_at_days : Option Int := none
deriving DecidableEq, Repr

/-- The `ToolResult` dataclass of `src/tools/base.py` (lines 14-21).
The optional structured `data` payload is opaque to the retry harness and
is modelled as an optional string. -/
structure ToolResult where
  success : Bool
  data : Option String := none
  error : Option String := none
  retry_allowed : Bool := false
deriving DecidableEq, Repr

/-- The lead snapshot read out of `state["lead_context"]` by the nodes
(`status`, `company`, `name` are the only keys the pipeline reads;
`dict.get` with a missing key is `none`). -/
structure LeadContext where
  status : Option String := none
  company : Option String := none
  name : Option String := none
deriving DecidableEq, Repr

/-- The `AgentState` TypedDict of `src/agent/state.py` (lines 10-50).
`retrieved_sources` / `reranked_sources` hold the `Evidence` values whose
`to_dict` serializations the Python state stores; conversation turns are
(role, content) pairs. -/
structure AgentState where
  lead_id : String
  lead_email : String
  query : String
  source : String
  lead_context : LeadContext
  conversation_history : List (String × String)
  decision : Option Decision
  decision_reasoning : String
  confidence : ℚ
  retrieval_needed : Bool
  retrieved_sources : List Evidence
  reranked_sources : List Evidence
  response_text : String
  sources_used : List String
  grounded : Bool
  tools_to_use : List String
  tool_results : List ToolResult
  tool_errors : List String
  escalated : Bool
  escalation_reason : Option String
  trace_id : String
  next_action : Option String
  errors : List String
deriving DecidableEq, Repr

namespace DecisionEngine

/-! ### `src/agent/decision_engine.py` -/

/-- The `decision_map` lookup of `DecisionEngine._parse_decision`
(lines 194-200): `none` models a key absent from the dict. -/
def decisionFromString (s : String) : Option Decision :=
  if s = "RETRIEVE" then some .RETRIEVE
  else if s = "REASON_ONLY" then some .REASON_ONLY
  else if s = "USE_TOOL" then some .USE_TOOL
  else if s = "CLARIFY" then some .CLARIFY
  else if s = "ESCALATE" then some .ESCALATE
  else none

/-- One iteration of the parsing loop in `_parse_decision` (lines 187-190):
a line containing a colon is split at the first colon
(`line.split(":", 1)`), the key is trimmed and upper-cased, the value
trimmed; other lines are skipped. -/
def parseLine (line : String) : Option (String × String) :=
  if line.contains ':' then
    let parts := line.splitOn ":"
    some ((parts.headD "").trim.toUpper, (String.intercalate ":" parts.tail).trim)
  else none

/-- The `parsed` dict built by `_parse_decision` (lines 184-190), kept as
the association list of assignments in program order. -/
def parseKV (response : String) : List (String × String) :=
  (response.trim.splitOn "\n").filterMap parseLine

/-- `parsed.get(key)`: in a Python dict the last assignment to a key wins,
so we look the key up in the reversed assignment list. -/
def lookupParsed (kvs : List (String × String)) (k : String) : Option String :=
  kvs.reverse.lookup k

/-- `DecisionEngine._parse_decision` (lines 182-228).  `floatParse` abstracts
Python's `float(...)` primitive: `none` models a raised `ValueError`
(caught at lines 204-208), `some q` a successfully parsed value. -/
def parse_decision (floatParse : String → Option ℚ) (response : String) :
    DecisionOutput :=
  let parsed := parseKV response
  let decision_str := (lookupParsed parsed "DECISION").getD "ESCALATE"
  let decision := (decisionFromString decision_str).getD .ESCALATE
  let confidence :=
    match floatParse ((lookupParsed parsed "CONFIDENCE").getD "0.5") with
    | some c => max 0 (min 1 c)
    | none => 1/2
  let reasoning := (lookupParsed parsed "REASONING").getD "No reasoning provided"
  let tools_str := (lookupParsed parsed "TOOLS_NEEDED").getD "none"
  let required_tools :=
    if tools_str.toLower ≠ "none" then (tools_str.splitOn ",").map String.trim
    else []
  let retrieval_needed :=
    ((lookupParsed parsed "RETRIEVAL_NEEDED").getD "no").toLower = "yes"
  { decision := decision
    confidence := confidence
    reasoning := reasoning
    required_tools := required_tools
    retrieval_needed := retrieval_needed }

/-- `DecisionEngine.decide` (lines 56-122), as a function of the outcome of
the single `self.llm.generate` call it makes: `.ok response` is the text
returned by the provider, `.error e` a raised provider exception, handled
by the `except` fallback at lines 108-122.  The prompt built at lines
78-83 only influences which response the provider returns, so it is not a
parameter of the embedded function; totality of this definition is the
never-propagates guarantee. -/
def decide (floatParse : String → Option ℚ) (genResult : Except String String) :
    DecisionOutput :=
  match genResult with
  | .ok response => parse_decision floatParse response
  | .error e =>
      { decision := .ESCALATE
        confidence := 0
        reasoning := "Decision engine error: " ++ e
        required_tools := []
        retrieval_needed := false
        escalation_reason := some "internal_error" }

/-- `DecisionEngine.calculate_confidence` (lines 230-286). -/
def calculate_confidence (sources_quality query_complexity
    context_completeness tool_success_rate : ℚ) (conflict_detected : Bool) : ℚ :=
  let base_confidence :=
    3/10 * sources_quality +
    2/10 * (1 - query_complexity) +
    3/10 * context_completeness +
    2/10 * tool_success_rate
  let base_confidence :=
    if conflict_detected then base_confidence * (1/2) else base_confidence
  max 0 (min 1 base_confidence)

/-- `DecisionEngine.should_escalate` (lines 288-314).  `low_threshold` is
`settings.confidence_low_threshold` captured at engine construction
(line 54); its shipped default is `0.5`. -/
def should_escalate (low_threshold : ℚ) (confidence : ℚ)
    (error_occurred : Bool := false) (sensitive_topic : Bool := false) :
    Bool × Option String :=
  if error_occurred then (true, some "error_in_processing")
  else if sensitive_topic then (true, some "sensitive_topic_detected")
  else if confidence < low_threshold then (true, some "confidence_below_threshold")
  else (false, none)

end DecisionEngine

namespace Reranker

/-! ### `src/rag/reranker.py` (an `EvidenceReranker()` with the default
weights 0.6 / 0.2 / 0.2, as instantiated in `src/agent/nodes.py` line 26) -/

/-- `EvidenceReranker._calculate_recency_score` (lines 75-104).  The clock
is fixed during a run, so `evidence.updated_at_days` is the computed
`days_old`; `rexp` abstracts the transcendental `math.exp` primitive at
the rational argument `-days_old / 90`.  A missing or unparsable
`updated_at` (the `if not updated_at` branch and the `except` at lines
103-104) yields `0.7`. -/
def calculate_recency_score (rexp : ℚ → ℚ) (evidence : Evidence) : ℚ :=
  match evidence.updated_at_days with
  | none => 7/10
  | some days_old => rexp (-(days_old : ℚ) / 90)

/-- `EvidenceReranker._calculate_quality_score` (lines 106-125):
`quality_map.get(doc_type, 0.7)`. -/
def calculate_quality_score (evidence : Evidence) : ℚ :=
  if evidence.doc_type = "pricing" then 1
  else if evidence.doc_type = "sop" then 95/100
  else if evidence.doc_type = "policy" then 9/10
  else if evidence.doc_type = "faq" then 8/10
  else if evidence.doc_type = "general" then 7/10
  else 7/10

/-- The composite score assigned at lines 64-68 of `rerank`:
`0.6 * cosine + 0.2 * recency + 0.2 * quality`, where the cosine term is
the evidence's *current* `score` field (line 55). -/
def compositeScore (rexp : ℚ → ℚ) (evidence : Evidence) : ℚ :=
  6/10 * evidence.score +
  2/10 * calculate_recency_score rexp evidence +
  2/10 * calculate_quality_score evidence

/-- The comparison used by `evidence_list.sort(key=lambda e: e.score,
reverse=True)` (line 71): Python's sort is stable, and with `reverse=True`
equal keys keep their input order, which is exactly a stable merge sort
with `le a b := b.score ≤ a.score`. -/
def scoreDesc (a b : Evidence) : Bool :=
  decide (b.score ≤ a.score)

/-- `EvidenceReranker.rerank` (lines 35-73): overwrite each score with the
composite score, then sort descending (stably).  The Python code mutates
the list in place; the embedding returns the rescored, sorted list. -/
def rerank (rexp : ℚ → ℚ) (evidence_list : List Evidence) : List Evidence :=
  if evidence_list.isEmpty then []
  else
    let scored :=
      evidence_list.map fun e => { e with score := compositeScore rexp e }
    scored.mergeSort scoreDesc

/-- `EvidenceReranker.filter_low_quality` (lines 127-143) with the
threshold argument the caller passes (the node passes
`settings.rag_confidence_threshold`, line 125 of `src/agent/nodes.py`). -/
def filter_low_quality (threshold : ℚ) (evidence_list : List Evidence) :
    List Evidence :=
  evidence_list.filter fun e => threshold ≤ e.score

/-- The spread test `max(scores) - min(scores) > 0.3` applied to a group
in `detect_conflicts` (lines 174-182). -/
def scoreSpreadExceeds (group : List Evidence) : Bool :=
  match group.map Evidence.score with
  | [] => false
  | s :: ss => decide (ss.foldl max s - ss.foldl min s > 3/10)

/-- `EvidenceReranker.detect_conflicts` (lines 145-184).  The Python code
groups by `doc_type` into a dict and then reads back only the `"pricing"`
and `"policy"` groups; each group is the sublist of entries with that
`doc_type`, in order. -/
def detect_conflicts (evidence_list : List Evidence) : Bool :=
  let pricing := evidence_list.filter fun e => e.doc_type == "pricing"
  let policy := evidence_list.filter fun e => e.doc_type == "policy"
  (pricing.length > 1 && scoreSpreadExceeds pricing) ||
  (policy.length > 1 && scoreSpreadExceeds policy)

end Reranker

namespace Retriever

/-! ### `src/rag/retriever.py` -/

/-- One hit's metadata dict, holding the keys `RAGRetriever.retrieve`
reads (lines 72-79); `none` models a missing key (`metadata.get`
supplies the default). -/
structure HitMeta where
  doc_title : Option String := none
  doc_type : Option String := none
  chunk_index : Option Nat := none
  source_file : Option String := none
  updated_at_days : Option Int := none
deriving DecidableEq, Repr

/-- The raw vector-store answer consumed at lines 68-82: four parallel
nested lists keyed `ids` / `documents` / `metadatas` / `distances`. -/
structure QueryResults where
  ids : List (List String)
  documents : List (List String)
  metadatas : List (List HitMeta)
  distances : List (List ℚ)
deriving Repr

/-- The body of the conversion loop (lines 69-82) for index `i`:
any out-of-range access raises `IndexError` in Python, modelled by
`none`. -/
def convertHit (results : QueryResults) (i : Nat) : Option Evidence := do
  let ids0 ← results.ids.get? 0
  let source_id ← ids0.get? i
  let metas0 ← results.metadatas.get? 0
  let meta ← metas0.get? i
  let docs0 ← results.documents.get? 0
  let chunk_text ← docs0.get? i
  let dists0 ← results.distances.get? 0
  let distance ← dists0.get? i
  pure { source_id := source_id
         doc_title := meta.doc_title.getD "unknown"
         doc_type := meta.doc_type.getD "unknown"
         chunk_text := chunk_text
         score := 1 - distance
         chunk_index := meta.chunk_index.getD 0
         source_file := meta.source_file.getD "unknown"
         updated_at_days := meta.updated_at_days }

/-- The guarded conversion of lines 67-82: when `results["ids"]` is empty
(`if results and results.get("ids") and len(results["ids"]) > 0`) the loop
is skipped and the list stays empty; otherwise the loop runs over
`range(len(ids[0]))`, and `none` models an `IndexError` escaping the
loop. -/
def convertResults (results : QueryResults) : Option (List Evidence) :=
  if results.ids.isEmpty then some []
  else (List.range (results.ids.headD []).length).mapM (convertHit results)

/-- `RAGRetriever.retrieve` (lines 29-101), as a function of the outcomes
of its two external calls.  The embedding call
`self.embedding_generator.embed_single(query)` (line 51) happens *before*
the `try` block, so its exception propagates; the vector-store `query`
call and the hit conversion happen inside the `try` (lines 59-92), and any
exception there is caught at lines 94-101 and degraded to the empty
list. -/
def retrieve (embedResult : Except String (List ℚ))
    (queryStore : List ℚ → Except String QueryResults) :
    Except String (List Evidence) :=
  match embedResult with
  | .error e => .error e
  | .ok query_embedding =>
    match queryStore query_embedding with
    | .error _ => .ok []
    | .ok results =>
      match convertResults results with
      | some evidence_list => .ok evidence_list
      | none => .ok []

end Retriever

namespace Tools

/-! ### `src/tools/base.py` -/

/-- The outcome of one `self.execute(**kwargs)` call inside
`execute_with_retry`: either a returned `ToolResult` or a raised
exception with its message. -/
inductive ExecOutcome where
  | ok (r : ToolResult)
  | exn (msg : String)
deriving DecidableEq, Repr

/-- The `ToolResult` built in the `except` handler of `execute_with_retry`
(lines 88-109): a non-retryable failure wrapping the exception message. -/
def exceptionResult (msg : String) : ToolResult :=
  { success := false
    error := some ("Tool execution exception: " ++ msg)
    retry_allowed := false }

/-- The `while retry_count <= self.max_retries` loop of
`Tool.execute_with_retry` (lines 52-116), with the adapter modelled as a
function from the attempt index (`retry_count` at call time) to that
attempt's outcome.  The first argument of the result pair is the returned
`ToolResult`; the second component instruments the number of `execute`
invocations made.  `fuel` bounds the loop for structural recursion; the
fuel-exhausted branch is the "safety return" at lines 112-116, which the
entry point's fuel of `max_retries + 1` makes unreachable. -/
def retryLoop (execute : Nat → ExecOutcome) (max_retries : Nat) :
    Nat → Nat → ToolResult × Nat
  | 0, _ =>
    ({ success := false, error := some "Max retries exceeded",
       retry_allowed := false }, 0)
  | fuel + 1, retry_count =>
    match execute retry_count with
    | .exn msg => (exceptionResult msg, 1)
    | .ok result =>
      if result.success || !result.retry_allowed then (result, 1)
      else if retry_count + 1 ≤ max_retries then
        let rest := retryLoop execute max_retries fuel (retry_count + 1)
        (rest.1, rest.2 + 1)
      else (result, 1)

/-- `Tool.execute_with_retry` (lines 45-116) with `self.max_retries = 3`
(line 38): the loop starts at `retry_count = 0`. -/
def execute_with_retry (execute : Nat → ExecOutcome) : ToolResult × Nat :=
  retryLoop execute 3 4 0

/-- An attempt outcome that the loop retries: a returned result with
`success = False` and `retry_allowed = True` (lines 73-77). -/
def isRetryableFailure : ExecOutcome → Bool
  | .ok r => !r.success && r.retry_allowed
  | .exn _ => false

end Tools

namespace Nodes

/-! ### `src/agent/nodes.py` -/

/-- `decide_action` (lines 79-103): copy the `DecisionOutput` fields into
the run state; when the decision is `ESCALATE`, set the escalated flag and
copy the output's (possibly `None`) escalation reason. -/
def decide_action (decision_output : DecisionOutput) (state : AgentState) :
    AgentState :=
  let state := { state with
    decision := some decision_output.decision
    decision_reasoning := decision_output.reasoning
    confidence := decision_output.confidence
    retrieval_needed := decision_output.retrieval_needed
    tools_to_use := decision_output.required_tools }
  if decision_output.decision = .ESCALATE then
    { state with
      escalated := true
      escalation_reason := decision_output.escalation_reason }
  else state

/-- `retrieve_rag` (lines 106-143), as a function of the evidence list the
retriever returned (line 114).  `reranker.rerank` mutates that list in
place (rescoring and sorting it) before `retrieved_sources` is serialized
from it at line 132, so both stored lists come from the reranked list;
`reranked_sources` additionally passes through `filter_low_quality` with
`settings.rag_confidence_threshold` (line 125).  When
`detect_conflicts` fires on the filtered list, the run confidence is
multiplied by `0.7` (line 137). -/
def retrieve_rag (rexp : ℚ → ℚ) (rag_confidence_threshold : ℚ)
    (evidence_list : List Evidence) (state : AgentState) : AgentState :=
  if !state.retrieval_needed then state
  else
    let reranked := Reranker.rerank rexp evidence_list
    let filtered := Reranker.filter_low_quality rag_confidence_threshold reranked
    let conflict_detected := Reranker.detect_conflicts filtered
    let state := { state with
      retrieved_sources := reranked
      reranked_sources := filtered }
    if conflict_detected then
      { state with confidence := state.confidence * (7/10) }
    else state

/-- The canned apology installed by the `except` handler of
`compose_response` (line 233). -/
def composeApology : String :=
  "I apologize, but I\x27m having trouble formulating a response. A team member will reach out to you shortly."

/-- `compose_response` (lines 146-237), as a function of the outcome of
the `llm_provider.generate` call (lines 192-197) and of the engine's low
threshold.  On success: the response text is stored, `grounded` is
`bool(sources_text)` - true exactly when `reranked_sources` is non-empty,
since each formatted source block is a non-empty string - `sources_used`
takes the first three reranked titles, and `should_escalate` is re-checked
(lines 212-225, with `error_occurred = sensitive_topic = False`),
escalating only if not already escalated.  On a raised generation failure
(lines 227-235): append the error, install the canned apology, force
escalation with reason `"response_generation_error"`. -/
def compose_response (low_threshold : ℚ) (genResult : Except String String)
    (state : AgentState) : AgentState :=
  match genResult with
  | .ok response_text =>
    let state := { state with
      response_text := response_text
      grounded := !state.reranked_sources.isEmpty
      sources_used := (state.reranked_sources.take 3).map Evidence.doc_title }
    let check := DecisionEngine.should_escalate low_threshold state.confidence
      false false
    if check.1 && !state.escalated then
      { state with escalated := true, escalation_reason := check.2 }
    else state
  | .error e =>
    { state with
      errors := state.errors ++ ["Response composition failed: " ++ e]
      response_text := composeApology
      escalated := true
      escalation_reason := some "response_generation_error" }

end Nodes

namespace Orchestrator

/-! ### `src/agent/orchestrator.py` -/

/-- The graph nodes added in `AgentOrchestrator._build_graph`
(lines 71-79). -/
inductive Node where
  | intake
  | load_context
  | decide
  | retrieve
  | compose
  | tools
  | escalate
  | memory
  | finalize
deriving DecidableEq, Repr

/-- `should_retrieve` (lines 24-28): the routing label returned by the
conditional edge function leaving `decide`. -/
def should_retrieve (state : AgentState) : String :=
  if state.retrieval_needed then "retrieve" else "compose"

/-- `should_use_tools` (lines 31-35): `state.get("tools_to_use")` is truthy
exactly when the list is non-empty.  This function is defined in the
source but never attached to the graph by `_build_graph`. -/
def should_use_tools (state : AgentState) : String :=
  if !state.tools_to_use.isEmpty then "tools" else "memory"

/-- `should_escalate` (lines 38-42), the conditional edge function leaving
`compose`. -/
def should_escalate (state : AgentState) : String :=
  if state.escalated then "escalate" else "memory"

/-- The successor function of the graph wired by `_build_graph`
(lines 65-119): plain edges from `add_edge`, the conditional edge leaving
`decide` routed by `should_retrieve` with mapping
`{"retrieve": retrieve, "compose": compose}` (lines 89-96), and the
conditional edge leaving `compose` routed by `should_escalate` with
mapping `{"escalate": escalate, "memory": memory}` (lines 101-108).
`none` is the `END` sink. -/
def nextNode (state : AgentState) : Node → Option Node
  | .intake => some .load_context
  | .load_context => some .decide
  | .decide =>
    some (if should_retrieve state = "retrieve" then .retrieve else .compose)
  | .retrieve => some .compose
  | .compose =>
    some (if should_escalate state = "escalate" then .escalate else .memory)
  | .tools => some .memory
  | .escalate => some .memory
  | .memory => some .finalize
  | .finalize => none

/-- The `initial_state` dict built by `AgentOrchestrator.run`
(lines 141-165). -/
def initial_state (lead_email query source trace_id : String) : AgentState :=
  { lead_id := ""
    lead_email := lead_email
    query := query
    source := source
    lead_context := {}
    conversation_history := []
    decision := none
    decision_reasoning := ""
    confidence := 0
    retrieval_needed := false
    retrieved_sources := []
    reranked_sources := []
    response_text := ""
    sources_used := []
    grounded := false
    tools_to_use := []
    tool_results := []
    tool_errors := []
    escalated := false
    escalation_reason := none
    trace_id := trace_id
    next_action := none
    errors := [] }

end Orchestrator

/-! ### Theorems -/

/-- Helper: `_parse_decision` never populates `escalation_reason` (the
dataclass default `None` is kept on every parse path). -/
theorem parse_decision_no_reason (fp : String → Option ℚ) (response : String) :
    (DecisionEngine.parse_decision fp response).escalation_reason = none := rfl

/-- C1: the claim says the conditional edge leaving `compose` routes to
`tools` whenever tool actions are pending and the run is not escalating.
The built graph contradicts the orchestrator's own docstring
(`compose_response -> [escalate OR execute_tools OR update_memory]`,
lines 54-56): `_build_graph` wires the edge leaving `compose` with
`should_escalate` only (mapping `{"escalate", "memory"}`, lines 101-108),
`should_use_tools` is never attached, and no edge of the graph enters the
`tools` node at all.  On the failing state (pending tool action
`"crm_update"`, not escalated) the code's own `should_use_tools` answers
`"tools"`, yet the wired successor of `compose` is `memory`, and no state
can ever reach `tools` from any node. -/
theorem c1_tools_node_unreachable :
    Orchestrator.should_use_tools
      { Orchestrator.initial_state "lead@example.com" "please book a call"
          "website_form" "trace-1" with
        tools_to_use := ["crm_update"], escalated := false } = "tools" ∧
    Orchestrator.nextNode
      { Orchestrator.initial_state "lead@example.com" "please book a call"
          "website_form" "trace-1" with
        tools_to_use := ["crm_update"], escalated := false } .compose =
      some .memory ∧
    ∀ (s : AgentState) (n : Orchestrator.Node),
      Orchestrator.nextNode s n ≠ some .tools := by
  refine ⟨rfl, rfl, ?_⟩
  intro s n
  cases n <;> simp [Orchestrator.nextNode] <;> split <;> simp

unseal String.anyAux String.splitOnAux Substring.takeWhileAux
  Substring.takeRightWhileAux String.mapAux in
/-- C2 (counterexample): after `decide_action` copies an `ESCALATE`
produced by parsing the model response `"DECISION: ESCALATE"` (not by the
exception fallback), the run state has `escalated = true` with
`escalation_reason = None`, refuting the invariant that
`escalated = true` always carries a non-null reason. -/
theorem c2_counterexample :
    (Nodes.decide_action
      (DecisionEngine.parse_decision (fun _ => none) "DECISION: ESCALATE")
      (Orchestrator.initial_state "lead@example.com" "hello" "website_form"
        "trace-2")).escalated = true ∧
    (Nodes.decide_action
      (DecisionEngine.parse_decision (fun _ => none) "DECISION: ESCALATE")
      (Orchestrator.initial_state "lead@example.com" "hello" "website_form"
        "trace-2")).escalation_reason = none := by
  constructor <;> decide

/-- C2 (amended): the non-null reason is guaranteed only for the
`ESCALATE` built by `decide`'s exception fallback (reason
`"internal_error"`); an `ESCALATE` parsed from the model response is
copied into the run state with `escalation_reason = None`, because
`_parse_decision` never sets the dataclass's optional reason. -/
theorem c2_escalation_reason_by_origin :
    (∀ (st : AgentState) (fp : String → Option ℚ) (msg : String),
      (Nodes.decide_action (DecisionEngine.decide fp (.error msg)) st).escalated
          = true ∧
      (Nodes.decide_action (DecisionEngine.decide fp (.error msg))
          st).escalation_reason = some "internal_error") ∧
    (∀ (st : AgentState) (fp : String → Option ℚ) (response : String),
      (DecisionEngine.parse_decision fp response).decision = .ESCALATE →
      (Nodes.decide_action (DecisionEngine.parse_decision fp response)
          st).escalated = true ∧
      (Nodes.decide_action (DecisionEngine.parse_decision fp response)
          st).escalation_reason = none) := by
  constructor
  · intro st fp msg
    exact ⟨rfl, rfl⟩
  · intro st fp response h
    constructor
    · simp [Nodes.decide_action, h]
    · simp [Nodes.decide_action, h, parse_decision_no_reason]

unseal String.anyAux String.splitOnAux Substring.takeWhileAux
  Substring.takeRightWhileAux String.mapAux in
/-- Witness for the amended C2 at concrete inputs. -/
theorem c2_escalation_reason_by_origin_witness :
    (Nodes.decide_action (DecisionEngine.decide (fun _ => none)
        (.error "provider down"))
      (Orchestrator.initial_state "a@b.co" "hi" "website_form"
        "trace-3")).escalation_reason = some "internal_error" ∧
    (Nodes.decide_action
      (DecisionEngine.parse_decision (fun _ => none)
        "DECISION: ESCALATE\nCONFIDENCE: 0.9")
      (Orchestrator.initial_state "a@b.co" "hi" "website_form"
        "trace-3")).escalation_reason = none :=
  ⟨(c2_escalation_reason_by_origin.1 _ (fun _ => none) "provider down").2,
   (c2_escalation_reason_by_origin.2 _ (fun _ => none)
      "DECISION: ESCALATE\nCONFIDENCE: 0.9" (by decide)).2⟩

/-- C4: on a raised generation failure, `compose_response` installs the
fixed apology, forces `escalated = true` with reason
`"response_generation_error"`, and appends the error string to the run's
error list - for every input state and every exception message. -/
theorem c4_compose_failure_guarantee (state : AgentState) (msg : String)
    (low_threshold : ℚ) :
    Nodes.compose_response low_threshold (.error msg) state =
      { state with
        errors := state.errors ++ ["Response composition failed: " ++ msg]
        response_text := Nodes.composeApology
        escalated := true
        escalation_reason := some "response_generation_error" } := rfl

/-- C6: when the generation call inside `decide` raises, `decide` returns
the fail-closed `DecisionOutput` (`ESCALATE`, confidence `0`, no tools,
no retrieval, reason `"internal_error"`).  The embedded `decide` is a
total function of the generation outcome, which is the never-propagates
guarantee. -/
theorem c6_decide_fail_closed (fp : String → Option ℚ) (msg : String) :
    DecisionEngine.decide fp (.error msg) =
      { decision := .ESCALATE
        confidence := 0
        reasoning := "Decision engine error: " ++ msg
        required_tools := []
        retrieval_needed := false
        escalation_reason := some "internal_error" } := rfl

/-- C7: for every float-parsing oracle and every response string, the
parser yields a decision among the five enum values, a confidence in
`[0,1]`; a missing or unrecognized `DECISION` value maps to `ESCALATE`,
and an unparsable `CONFIDENCE` value defaults to `0.5`.  Consequently
`decide` (which either parses or takes the `ESCALATE` fallback of
confidence `0`) always returns a decision in the closed set and a
confidence in `[0,1]`. -/
theorem c7_parser_closed_and_clamped (fp : String → Option ℚ)
    (response : String) :
    ((DecisionEngine.parse_decision fp response).decision = .RETRIEVE ∨
     (DecisionEngine.parse_decision fp response).decision = .REASON_ONLY ∨
     (DecisionEngine.parse_decision fp response).decision = .USE_TOOL ∨
     (DecisionEngine.parse_decision fp response).decision = .CLARIFY ∨
     (DecisionEngine.parse_decision fp response).decision = .ESCALATE) ∧
    (0 ≤ (DecisionEngine.parse_decision fp response).confidence ∧
     (DecisionEngine.parse_decision fp response).confidence ≤ 1) ∧
    ((∀ v, DecisionEngine.lookupParsed (DecisionEngine.parseKV response)
        "DECISION" = some v → DecisionEngine.decisionFromString v = none) →
      (DecisionEngine.parse_decision fp response).decision = .ESCALATE) ∧
    (fp ((DecisionEngine.lookupParsed (DecisionEngine.parseKV response)
        "CONFIDENCE").getD "0.5") = none →
      (DecisionEngine.parse_decision fp response).confidence = 1/2) := by
  refine ⟨?_, ?_, ?_, ?_⟩
  · rcases h : (DecisionEngine.parse_decision fp response).decision <;> simp
  · simp only [DecisionEngine.parse_decision]
    rcases hfp : fp ((DecisionEngine.lookupParsed
        (DecisionEngine.parseKV response) "CONFIDENCE").getD "0.5") with _ | c
    all_goals simp only [hfp]
    · norm_num
    · exact ⟨le_max_left 0 _, max_le (by norm_num) (min_le_left 1 c)⟩
  · intro h
    simp only [DecisionEngine.parse_decision]
    rcases hl : DecisionEngine.lookupParsed (DecisionEngine.parseKV response)
        "DECISION" with _ | v
    · simp [hl, DecisionEngine.decisionFromString]
    · simp [hl, h v hl]
  · intro h
    simp [DecisionEngine.parse_decision, h]

unseal String.anyAux String.splitOnAux Substring.takeWhileAux
  Substring.takeRightWhileAux String.mapAux in
/-- Witness for C7 at concrete inputs (empty response, failing float
parser): both default branches fire. -/
theorem c7_parser_closed_and_clamped_witness :
    (DecisionEngine.parse_decision (fun _ => none) "").decision =
      .ESCALATE ∧
    (DecisionEngine.parse_decision (fun _ => none) "").confidence = 1/2 := by
  refine ⟨(c7_parser_closed_and_clamped (fun _ => none) "").2.2.1 ?_,
    (c7_parser_closed_and_clamped (fun _ => none) "").2.2.2 rfl⟩
  intro v hv
  rw [show DecisionEngine.lookupParsed (DecisionEngine.parseKV "") "DECISION"
      = none by decide] at hv
  cases hv

/-- Helper: the clamp to `[0,1]` is monotone. -/
theorem clamp01_mono {x y : ℚ} (h : x ≤ y) :
    max 0 (min 1 x) ≤ max 0 (min 1 y) :=
  max_le_max le_rfl (min_le_min le_rfl h)

/-- Helper: `calculate_confidence` with its two `let` bindings
zeta-reduced. -/
theorem calculate_confidence_eq (sq qc cc tsr : ℚ) (conflict : Bool) :
    DecisionEngine.calculate_confidence sq qc cc tsr conflict =
      max 0 (min 1 (if conflict then
        (3/10 * sq + 2/10 * (1 - qc) + 3/10 * cc + 2/10 * tsr) * (1/2)
        else 3/10 * sq + 2/10 * (1 - qc) + 3/10 * cc + 2/10 * tsr)) := rfl

/-- C8: `calculate_confidence` equals the clamped, conflict-halved
weighted sum; it is monotonically non-decreasing in each of
`sources_quality`, `context_completeness`, `tool_success_rate`,
non-increasing in `query_complexity`, and for inputs in `[0,1]` the
conflict flag exactly halves the result. -/
theorem c8_calculate_confidence_spec :
    (∀ (sq qc cc tsr : ℚ) (conflict : Bool),
      DecisionEngine.calculate_confidence sq qc cc tsr conflict =
        max 0 (min 1 ((if conflict then (1:ℚ)/2 else 1) *
          (3/10 * sq + 2/10 * (1 - qc) + 3/10 * cc + 2/10 * tsr)))) ∧
    (∀ (sq sq' qc cc tsr : ℚ) (conflict : Bool), sq ≤ sq' →
      DecisionEngine.calculate_confidence sq qc cc tsr conflict ≤
      DecisionEngine.calculate_confidence sq' qc cc tsr conflict) ∧
    (∀ (sq qc qc' cc tsr : ℚ) (conflict : Bool), qc ≤ qc' →
      DecisionEngine.calculate_confidence sq qc' cc tsr conflict ≤
      DecisionEngine.calculate_confidence sq qc cc tsr conflict) ∧
    (∀ (sq qc cc cc' tsr : ℚ) (conflict : Bool), cc ≤ cc' →
      DecisionEngine.calculate_confidence sq qc cc tsr conflict ≤
      DecisionEngine.calculate_confidence sq qc cc' tsr conflict) ∧
    (∀ (sq qc cc tsr tsr' : ℚ) (conflict : Bool), tsr ≤ tsr' →
      DecisionEngine.calculate_confidence sq qc cc tsr conflict ≤
      DecisionEngine.calculate_confidence sq qc cc tsr' conflict) ∧
    (∀ sq qc cc tsr : ℚ,
      0 ≤ sq → sq ≤ 1 → 0 ≤ qc → qc ≤ 1 → 0 ≤ cc → cc ≤ 1 →
      0 ≤ tsr → tsr ≤ 1 →
      DecisionEngine.calculate_confidence sq qc cc tsr true =
        1/2 * DecisionEngine.calculate_confidence sq qc cc tsr false) := by
  refine ⟨?_, ?_, ?_, ?_, ?_, ?_⟩
  · intro sq qc cc tsr conflict
    rw [calculate_confidence_eq]
    cases conflict
    · simp
    · simp
      ring_nf
  · intro sq sq' qc cc tsr conflict h
    rw [calculate_confidence_eq, calculate_confidence_eq]
    apply clamp01_mono
    cases conflict <;> simp <;> linarith
  · intro sq qc qc' cc tsr conflict h
    rw [calculate_confidence_eq, calculate_confidence_eq]
    apply clamp01_mono
    cases conflict <;> simp <;> linarith
  · intro sq qc cc cc' tsr conflict h
    rw [calculate_confidence_eq, calculate_confidence_eq]
    apply clamp01_mono
    cases conflict <;> simp <;> linarith
  · intro sq qc cc tsr tsr' conflict h
    rw [calculate_confidence_eq, calculate_confidence_eq]
    apply clamp01_mono
    cases conflict <;> simp <;> linarith
  · intro sq qc cc tsr h1 h2 h3 h4 h5 h6 h7 h8
    rw [calculate_confidence_eq, calculate_confidence_eq]
    have hb1 : (0:ℚ) ≤ 3/10 * sq + 2/10 * (1 - qc) + 3/10 * cc + 2/10 * tsr := by
      nlinarith
    have hb2 : 3/10 * sq + 2/10 * (1 - qc) + 3/10 * cc + 2/10 * tsr ≤ 1 := by
      nlinarith
    rw [if_pos rfl, if_neg (by simp)]
    rw [min_eq_right (by linarith), min_eq_right (by linarith)]
    rw [max_eq_right (by linarith), max_eq_right (by linarith)]
    ring

/-- Witness for C8 at concrete inputs. -/
theorem c8_calculate_confidence_spec_witness :
    DecisionEngine.calculate_confidence (1/2) (1/4) (3/4) 1 false ≤
      DecisionEngine.calculate_confidence (3/4) (1/4) (3/4) 1 false ∧
    DecisionEngine.calculate_confidence (1/2) (1/4) (3/4) 1 true =
      1/2 * DecisionEngine.calculate_confidence (1/2) (1/4) (3/4) 1 false :=
  ⟨c8_calculate_confidence_spec.2.1 (1/2) (3/4) (1/4) (3/4) 1 false
      (by norm_num),
   c8_calculate_confidence_spec.2.2.2.2.2 (1/2) (1/4) (3/4) 1
      (by norm_num) (by norm_num) (by norm_num) (by norm_num)
      (by norm_num) (by norm_num) (by norm_num) (by norm_num)⟩

/-- Helper: the quality score of a `"general"`-typed evidence. -/
theorem quality_score_general (e : Evidence) (h : e.doc_type = "general") :
    Reranker.calculate_quality_score e = 7/10 := by
  simp [Reranker.calculate_quality_score, h]

/-- Helper: the quality score of a `"pricing"`-typed evidence. -/
theorem quality_score_pricing (e : Evidence) (h : e.doc_type = "pricing") :
    Reranker.calculate_quality_score e = 1 := by
  simp [Reranker.calculate_quality_score, h]

/-- Helper: the recency score defaults to `0.7` without `updated_at`. -/
theorem recency_score_none (rexp : ℚ → ℚ) (e : Evidence)
    (h : e.updated_at_days = none) :
    Reranker.calculate_recency_score rexp e = 7/10 := by
  simp [Reranker.calculate_recency_score, h]

/-- Helper: the descending score comparison is transitive. -/
theorem scoreDesc_trans (a b c : Evidence)
    (h1 : Reranker.scoreDesc a b = true) (h2 : Reranker.scoreDesc b c = true) :
    Reranker.scoreDesc a c = true := by
  simp only [Reranker.scoreDesc, decide_eq_true_eq] at h1 h2 ⊢
  exact le_trans h2 h1

/-- Helper: the descending score comparison is total. -/
theorem scoreDesc_total (a b : Evidence) :
    (Reranker.scoreDesc a b || Reranker.scoreDesc b a) = true := by
  simp only [Reranker.scoreDesc, Bool.or_eq_true, decide_eq_true_eq]
  exact le_total _ _

/-- Helper: when every item's score is already the fixed point of the
composite formula (`score = (recency + quality) / 2`), the rescoring map
of `rerank` is the identity. -/
theorem rescored_map_eq_self (rexp : ℚ → ℚ) (l : List Evidence)
    (h : ∀ e ∈ l, e.score = (Reranker.calculate_recency_score rexp e +
      Reranker.calculate_quality_score e) / 2) :
    l.map (fun e => { e with score := Reranker.compositeScore rexp e }) = l := by
  have h2 : ∀ e ∈ l,
      (fun e => { e with score := Reranker.compositeScore rexp e }) e = id e := by
    intro e he
    have hc : Reranker.compositeScore rexp e = e.score := by
      simp only [Reranker.compositeScore]
      rw [h e he]
      ring
    simp only [hc, id]
  rw [List.map_congr_left h2, List.map_id]

/-- C3 (amended): `rerank` is not idempotent in general - a second
application recomputes each composite score with the first composite in
place of the original similarity.  It is idempotent exactly on the fixed
points of the rescoring: when every item's score already equals
`(recency + quality) / 2`, re-applying `rerank` reproduces the same order
and the same per-item scores. -/
theorem c3_rerank_idempotent_on_stable_scores (rexp : ℚ → ℚ)
    (l : List Evidence)
    (h : ∀ e ∈ l, e.score = (Reranker.calculate_recency_score rexp e +
      Reranker.calculate_quality_score e) / 2) :
    Reranker.rerank rexp (Reranker.rerank rexp l) = Reranker.rerank rexp l := by
  cases l with
  | nil => simp [Reranker.rerank]
  | cons a t =>
    have h1 : Reranker.rerank rexp (a :: t) =
        (a :: t).mergeSort Reranker.scoreDesc := by
      simp only [Reranker.rerank, List.isEmpty_cons, Bool.false_eq_true,
        if_false]
      rw [rescored_map_eq_self rexp _ h]
    have hmem : ∀ e ∈ (a :: t).mergeSort Reranker.scoreDesc,
        e.score = (Reranker.calculate_recency_score rexp e +
          Reranker.calculate_quality_score e) / 2 :=
      fun e he => h e (List.mem_mergeSort.mp he)
    have hsorted : ((a :: t).mergeSort Reranker.scoreDesc).Pairwise
        (fun x y => Reranker.scoreDesc x y = true) := by
      exact @List.sorted_mergeSort _ Reranker.scoreDesc
        scoreDesc_trans scoreDesc_total (a :: t)
    have hne2 : ((a :: t).mergeSort Reranker.scoreDesc).isEmpty = false := by
      cases hms : (a :: t).mergeSort Reranker.scoreDesc with
      | nil =>
        have hlen := @List.length_mergeSort _ Reranker.scoreDesc (a :: t)
        rw [hms] at hlen
        simp at hlen
      | cons b s => rfl
    rw [h1]
    have h2 : Reranker.rerank rexp ((a :: t).mergeSort Reranker.scoreDesc) =
        ((a :: t).mergeSort Reranker.scoreDesc).mergeSort Reranker.scoreDesc := by
      simp only [Reranker.rerank, hne2, Bool.false_eq_true, if_false]
      rw [rescored_map_eq_self rexp _ hmem]
    rw [h2, List.mergeSort_of_sorted hsorted]

/-- Witness for the amended C3: a singleton list whose score sits at the
fixed point `(0.7 + 0.7) / 2 = 0.7` is untouched by either
application. -/
theorem c3_rerank_idempotent_on_stable_scores_witness :
    Reranker.rerank (fun q => q) (Reranker.rerank (fun q => q)
      [{ source_id := "chunk-7", doc_title := "General notes",
         doc_type := "general", chunk_text := "note body", score := 7/10,
         chunk_index := 0, source_file := "notes.md" }]) =
    Reranker.rerank (fun q => q)
      [{ source_id := "chunk-7", doc_title := "General notes",
         doc_type := "general", chunk_text := "note body", score := 7/10,
         chunk_index := 0, source_file := "notes.md" }] := by
  apply c3_rerank_idempotent_on_stable_scores
  intro e he
  rw [List.mem_singleton] at he
  subst he
  simp [Reranker.calculate_recency_score, Reranker.calculate_quality_score]

/-- C3 (counterexample): re-applying `rerank` to an already-reranked
singleton list changes its score (0.28 becomes 0.448), because the first
composite overwrote the similarity the formula reads; hence `rerank` is
not idempotent on scores. -/
theorem c3_counterexample :
    (Reranker.rerank (fun q => q) (Reranker.rerank (fun q => q)
      [{ source_id := "chunk-1", doc_title := "General notes",
         doc_type := "general", chunk_text := "note body", score := 0,
         chunk_index := 0, source_file := "notes.md" }])).map Evidence.score ≠
    (Reranker.rerank (fun q => q)
      [{ source_id := "chunk-1", doc_title := "General notes",
         doc_type := "general", chunk_text := "note body", score := 0,
         chunk_index := 0, source_file := "notes.md" }]).map Evidence.score := by
  have h1 : Reranker.rerank (fun q => q)
      [{ source_id := "chunk-1", doc_title := "General notes",
         doc_type := "general", chunk_text := "note body", score := 0,
         chunk_index := 0, source_file := "notes.md" }] =
      [{ source_id := "chunk-1", doc_title := "General notes",
         doc_type := "general", chunk_text := "note body", score := 28/100,
         chunk_index := 0, source_file := "notes.md" }] := by
    simp only [Reranker.rerank, List.isEmpty_cons, Bool.false_eq_true,
      if_false, List.map_cons, List.map_nil, List.mergeSort_singleton]
    simp [Reranker.compositeScore, Reranker.calculate_recency_score,
      Reranker.calculate_quality_score]
    norm_num
  have h2 : Reranker.rerank (fun q => q)
      [{ source_id := "chunk-1", doc_title := "General notes",
         doc_type := "general", chunk_text := "note body", score := 28/100,
         chunk_index := 0, source_file := "notes.md" }] =
      [{ source_id := "chunk-1", doc_title := "General notes",
         doc_type := "general", chunk_text := "note body", score := 448/1000,
         chunk_index := 0, source_file := "notes.md" }] := by
    simp only [Reranker.rerank, List.isEmpty_cons, Bool.false_eq_true,
      if_false, List.map_cons, List.map_nil, List.mergeSort_singleton]
    simp [Reranker.compositeScore, Reranker.calculate_recency_score,
      Reranker.calculate_quality_score]
    norm_num
  rw [h1, h2]
  simp only [List.map_cons, List.map_nil, ne_eq, List.cons.injEq]
  norm_num

/-- C10: in the retrieval node, a conflict detected on the filtered
evidence multiplies the run confidence by `0.7` before composition; with
no conflict (or no retrieval) the node leaves the confidence untouched -
and `retrieve` is the only node between `decide` and `compose` in the
wired graph, so this is the only confidence mutation between those
stages.  The damping maps `[0,1]` into `[0,1]`, and it can push an
otherwise-passing confidence below the default low threshold `0.5`
checked after composition: `0.6` passes, `0.6 * 0.7 = 0.42` escalates
with reason `"confidence_below_threshold"`. -/
theorem c10_conflict_dampening (rexp : ℚ → ℚ) (thr : ℚ)
    (evidence_list : List Evidence) (state : AgentState) :
    (state.retrieval_needed = true →
      Reranker.detect_conflicts (Reranker.filter_low_quality thr
        (Reranker.rerank rexp evidence_list)) = true →
      (Nodes.retrieve_rag rexp thr evidence_list state).confidence =
        state.confidence * (7/10)) ∧
    (state.retrieval_needed = true →
      Reranker.detect_conflicts (Reranker.filter_low_quality thr
        (Reranker.rerank rexp evidence_list)) = false →
      (Nodes.retrieve_rag rexp thr evidence_list state).confidence =
        state.confidence) ∧
    (state.retrieval_needed = false →
      Nodes.retrieve_rag rexp thr evidence_list state = state) ∧
    (0 ≤ state.confidence → state.confidence ≤ 1 →
      0 ≤ (Nodes.retrieve_rag rexp thr evidence_list state).confidence ∧
      (Nodes.retrieve_rag rexp thr evidence_list state).confidence ≤ 1) ∧
    (∀ s : AgentState, Orchestrator.nextNode s .retrieve = some .compose ∧
      (Orchestrator.nextNode s .decide = some .retrieve ∨
       Orchestrator.nextNode s .decide = some .compose)) ∧
    (DecisionEngine.should_escalate (1/2) (6/10) false false =
        (false, none) ∧
     DecisionEngine.should_escalate (1/2) (6/10 * (7/10)) false false =
       (true, some "confidence_below_threshold")) := by
  refine ⟨?_, ?_, ?_, ?_, ?_, ?_⟩
  · intro hrn hc
    simp [Nodes.retrieve_rag, hrn, hc]
  · intro hrn hc
    simp [Nodes.retrieve_rag, hrn, hc]
  · intro hrn
    simp [Nodes.retrieve_rag, hrn]
  · intro h0 h1
    cases hrn : state.retrieval_needed with
    | false =>
      simp only [Nodes.retrieve_rag, hrn, Bool.not_false, if_true]
      exact ⟨h0, h1⟩
    | true =>
      cases hc : Reranker.detect_conflicts (Reranker.filter_low_quality thr
          (Reranker.rerank rexp evidence_list)) with
      | false =>
        simp [Nodes.retrieve_rag, hrn, hc]
        exact ⟨h0, h1⟩
      | true =>
        simp [Nodes.retrieve_rag, hrn, hc]
        constructor <;> nlinarith
  · intro s
    refine ⟨rfl, ?_⟩
    cases hb : s.retrieval_needed with
    | true =>
      left
      simp [Orchestrator.nextNode, Orchestrator.should_retrieve, hb]
    | false =>
      right
      simp [Orchestrator.nextNode, Orchestrator.should_retrieve, hb]
  · constructor <;> norm_num [DecisionEngine.should_escalate]

/-- Witness for C10: two pricing chunks with composite scores 0.94 and
0.34 (spread 0.6 > 0.3) trigger the conflict damping on a run that
entered retrieval with confidence 0.6, leaving 0.42, which the
post-composition check escalates at the default low threshold 0.5. -/
theorem c10_conflict_dampening_witness :
    (Nodes.retrieve_rag (fun q => q) 0
      [{ source_id := "price-1", doc_title := "Pricing tiers",
         doc_type := "pricing", chunk_text := "tier table", score := 1,
         chunk_index := 0, source_file := "pricing.md" },
       { source_id := "price-2", doc_title := "Old pricing",
         doc_type := "pricing", chunk_text := "old table", score := 0,
         chunk_index := 1, source_file := "pricing-old.md" }]
      { Orchestrator.initial_state "w@example.com" "What are your prices?"
          "website_form" "trace-10" with
        retrieval_needed := true, confidence := 6/10 }).confidence =
      6/10 * (7/10) ∧
    DecisionEngine.should_escalate (1/2) (6/10 * (7/10)) false false =
      (true, some "confidence_below_threshold") := by
  have hmap :
      [({ source_id := "price-1", doc_title := "Pricing tiers",
          doc_type := "pricing", chunk_text := "tier table", score := 1,
          chunk_index := 0, source_file := "pricing.md" } : Evidence),
        { source_id := "price-2", doc_title := "Old pricing",
          doc_type := "pricing", chunk_text := "old table", score := 0,
          chunk_index := 1, source_file := "pricing-old.md" }].map
        (fun e => { e with score := Reranker.compositeScore (fun q => q) e }) =
      [{ source_id := "price-1", doc_title := "Pricing tiers",
         doc_type := "pricing", chunk_text := "tier table", score := 94/100,
         chunk_index := 0, source_file := "pricing.md" },
       { source_id := "price-2", doc_title := "Old pricing",
         doc_type := "pricing", chunk_text := "old table", score := 34/100,
         chunk_index := 1, source_file := "pricing-old.md" }] := by
    simp only [List.map_cons, List.map_nil, Reranker.compositeScore]
    rw [recency_score_none (fun q => q) _ rfl, quality_score_pricing _ rfl,
      recency_score_none (fun q => q) _ rfl, quality_score_pricing _ rfl]
    norm_num
  have hre :
      Reranker.rerank (fun q => q)
        [{ source_id := "price-1", doc_title := "Pricing tiers",
           doc_type := "pricing", chunk_text := "tier table", score := 1,
           chunk_index := 0, source_file := "pricing.md" },
         { source_id := "price-2", doc_title := "Old pricing",
           doc_type := "pricing", chunk_text := "old table", score := 0,
           chunk_index := 1, source_file := "pricing-old.md" }] =
      [{ source_id := "price-1", doc_title := "Pricing tiers",
         doc_type := "pricing", chunk_text := "tier table", score := 94/100,
         chunk_index := 0, source_file := "pricing.md" },
       { source_id := "price-2", doc_title := "Old pricing",
         doc_type := "pricing", chunk_text := "old table", score := 34/100,
         chunk_index := 1, source_file := "pricing-old.md" }] := by
    simp only [Reranker.rerank, List.isEmpty_cons, Bool.false_eq_true,
      if_false]
    rw [hmap]
    apply List.mergeSort_of_sorted
    constructor
    · intro b hb
      rw [List.mem_singleton] at hb
      subst hb
      simp only [Reranker.scoreDesc, decide_eq_true_eq]
      norm_num
    · exact List.pairwise_singleton _ _
  have hconf :
      Reranker.detect_conflicts (Reranker.filter_low_quality 0
        (Reranker.rerank (fun q => q)
          [{ source_id := "price-1", doc_title := "Pricing tiers",
             doc_type := "pricing", chunk_text := "tier table", score := 1,
             chunk_index := 0, source_file := "pricing.md" },
           { source_id := "price-2", doc_title := "Old pricing",
             doc_type := "pricing", chunk_text := "old table", score := 0,
             chunk_index := 1, source_file := "pricing-old.md" }])) = true := by
    rw [hre]
    simp only [Reranker.filter_low_quality, Reranker.detect_conflicts,
      Reranker.scoreSpreadExceeds]
    norm_num
  exact ⟨(c10_conflict_dampening (fun q => q) 0 _ _).1 rfl hconf,
    (c10_conflict_dampening (fun q => q) 0 []
      (Orchestrator.initial_state "w@example.com" "What are your prices?"
        "website_form" "trace-10")).2.2.2.2.2.2⟩

/-- Helper: a retryable failure is a returned result with
`success = False`, `retry_allowed = True`. -/
theorem retryable_spec {o : Tools.ExecOutcome}
    (h : Tools.isRetryableFailure o = true) :
    ∃ r, o = .ok r ∧ r.success = false ∧ r.retry_allowed = true := by
  cases o with
  | ok r =>
    simp only [Tools.isRetryableFailure, Bool.and_eq_true,
      Bool.not_eq_true'] at h
    exact ⟨r, rfl, h.1, h.2⟩
  | exn m => simp [Tools.isRetryableFailure] at h

/-- Helper: the instrumented call count never exceeds the fuel. -/
theorem retryLoop_count_le (execute : Nat → Tools.ExecOutcome) (mr : Nat) :
    ∀ (fuel rc : Nat), (Tools.retryLoop execute mr fuel rc).2 ≤ fuel := by
  intro fuel
  induction fuel with
  | zero => intro rc; simp [Tools.retryLoop]
  | succ n ih =>
    intro rc
    rcases h : execute rc with r | m
    · simp only [Tools.retryLoop, h]
      split
      · simp
      · split
        · have := ih (rc + 1)
          simp only []
          omega
        · simp
    · simp [Tools.retryLoop, h]

/-- Helper: a retryable failure with budget left makes one more call. -/
theorem retryLoop_retryable_step (execute : Nat → Tools.ExecOutcome)
    (mr n rc : Nat) (r : ToolResult) (he : execute rc = .ok r)
    (hs : r.success = false) (ha : r.retry_allowed = true)
    (hrc : rc + 1 ≤ mr) :
    Tools.retryLoop execute mr (n + 1) rc =
      ((Tools.retryLoop execute mr n (rc + 1)).1,
       (Tools.retryLoop execute mr n (rc + 1)).2 + 1) := by
  simp [Tools.retryLoop, he, hs, ha, hrc]

/-- Helper: a success or non-retryable failure stops the loop at once. -/
theorem retryLoop_stop (execute : Nat → Tools.ExecOutcome) (mr n rc : Nat)
    (r : ToolResult) (he : execute rc = .ok r)
    (hsr : r.success = true ∨ r.retry_allowed = false) :
    Tools.retryLoop execute mr (n + 1) rc = (r, 1) := by
  rcases hsr with h | h <;> simp [Tools.retryLoop, he, h]

/-- Helper: a retryable failure with no budget left is returned as is. -/
theorem retryLoop_exhaust (execute : Nat → Tools.ExecOutcome) (mr n rc : Nat)
    (r : ToolResult) (he : execute rc = .ok r) (hs : r.success = false)
    (ha : r.retry_allowed = true) (hrc : ¬ rc + 1 ≤ mr) :
    Tools.retryLoop execute mr (n + 1) rc = (r, 1) := by
  simp [Tools.retryLoop, he, hs, ha, hrc]

/-- Helper: a raised exception stops the loop with the wrapped failure. -/
theorem retryLoop_exn (execute : Nat → Tools.ExecOutcome) (mr n rc : Nat)
    (msg : String) (he : execute rc = .exn msg) :
    Tools.retryLoop execute mr (n + 1) rc = (Tools.exceptionResult msg, 1) := by
  simp [Tools.retryLoop, he]

/-- C5: `execute_with_retry` invokes the adapter at most 4 times; if all
four attempts are retryable failures it returns the 4th result unchanged
(after 4 calls); the first success or non-retryable failure is returned
immediately; and a raised exception is returned immediately as a
non-retryable wrapped failure. -/
theorem c5_execute_with_retry_spec (execute : Nat → Tools.ExecOutcome) :
    (Tools.execute_with_retry execute).2 ≤ 4 ∧
    (∀ r3 : ToolResult,
      (∀ k, k < 4 → Tools.isRetryableFailure (execute k) = true) →
      execute 3 = .ok r3 →
      Tools.execute_with_retry execute = (r3, 4)) ∧
    (∀ (k : Nat) (r : ToolResult), k ≤ 3 →
      (∀ j, j < k → Tools.isRetryableFailure (execute j) = true) →
      execute k = .ok r → (r.success = true ∨ r.retry_allowed = false) →
      Tools.execute_with_retry execute = (r, k + 1)) ∧
    (∀ (k : Nat) (msg : String), k ≤ 3 →
      (∀ j, j < k → Tools.isRetryableFailure (execute j) = true) →
      execute k = .exn msg →
      Tools.execute_with_retry execute = (Tools.exceptionResult msg, k + 1)) := by
  refine ⟨retryLoop_count_le execute 3 4 0, ?_, ?_, ?_⟩
  · intro r3 hall h3
    obtain ⟨r0, e0, s0, a0⟩ := retryable_spec (hall 0 (by omega))
    obtain ⟨r1, e1, s1, a1⟩ := retryable_spec (hall 1 (by omega))
    obtain ⟨r2, e2, s2, a2⟩ := retryable_spec (hall 2 (by omega))
    obtain ⟨r3', e3, s3, a3⟩ := retryable_spec (hall 3 (by omega))
    rw [h3] at e3
    injection e3 with e3
    subst e3
    show Tools.retryLoop execute 3 4 0 = (r3, 4)
    rw [retryLoop_retryable_step execute 3 3 0 r0 e0 s0 a0 (by omega),
      retryLoop_retryable_step execute 3 2 1 r1 e1 s1 a1 (by omega),
      retryLoop_retryable_step execute 3 1 2 r2 e2 s2 a2 (by omega),
      retryLoop_exhaust execute 3 0 3 r3 h3 s3 a3 (by omega)]
  · intro k r hk hprev hek hsr
    show Tools.retryLoop execute 3 4 0 = (r, k + 1)
    interval_cases k
    · exact retryLoop_stop execute 3 3 0 r hek hsr
    · obtain ⟨r0, e0, s0, a0⟩ := retryable_spec (hprev 0 (by omega))
      rw [retryLoop_retryable_step execute 3 3 0 r0 e0 s0 a0 (by omega),
        retryLoop_stop execute 3 2 1 r hek hsr]
    · obtain ⟨r0, e0, s0, a0⟩ := retryable_spec (hprev 0 (by omega))
      obtain ⟨r1, e1, s1, a1⟩ := retryable_spec (hprev 1 (by omega))
      rw [retryLoop_retryable_step execute 3 3 0 r0 e0 s0 a0 (by omega),
        retryLoop_retryable_step execute 3 2 1 r1 e1 s1 a1 (by omega),
        retryLoop_stop execute 3 1 2 r hek hsr]
    · obtain ⟨r0, e0, s0, a0⟩ := retryable_spec (hprev 0 (by omega))
      obtain ⟨r1, e1, s1, a1⟩ := retryable_spec (hprev 1 (by omega))
      obtain ⟨r2, e2, s2, a2⟩ := retryable_spec (hprev 2 (by omega))
      rw [retryLoop_retryable_step execute 3 3 0 r0 e0 s0 a0 (by omega),
        retryLoop_retryable_step execute 3 2 1 r1 e1 s1 a1 (by omega),
        retryLoop_retryable_step execute 3 1 2 r2 e2 s2 a2 (by omega),
        retryLoop_stop execute 3 0 3 r hek hsr]
  · intro k msg hk hprev hek
    show Tools.retryLoop execute 3 4 0 = (Tools.exceptionResult msg, k + 1)
    interval_cases k
    · exact retryLoop_exn execute 3 3 0 msg hek
    · obtain ⟨r0, e0, s0, a0⟩ := retryable_spec (hprev 0 (by omega))
      rw [retryLoop_retryable_step execute 3 3 0 r0 e0 s0 a0 (by omega),
        retryLoop_exn execute 3 2 1 msg hek]
    · obtain ⟨r0, e0, s0, a0⟩ := retryable_spec (hprev 0 (by omega))
      obtain ⟨r1, e1, s1, a1⟩ := retryable_spec (hprev 1 (by omega))
      rw [retryLoop_retryable_step execute 3 3 0 r0 e0 s0 a0 (by omega),
        retryLoop_retryable_step execute 3 2 1 r1 e1 s1 a1 (by omega),
        retryLoop_exn execute 3 1 2 msg hek]
    · obtain ⟨r0, e0, s0, a0⟩ := retryable_spec (hprev 0 (by omega))
      obtain ⟨r1, e1, s1, a1⟩ := retryable_spec (hprev 1 (by omega))
      obtain ⟨r2, e2, s2, a2⟩ := retryable_spec (hprev 2 (by omega))
      rw [retryLoop_retryable_step execute 3 3 0 r0 e0 s0 a0 (by omega),
        retryLoop_retryable_step execute 3 2 1 r1 e1 s1 a1 (by omega),
        retryLoop_retryable_step execute 3 1 2 r2 e2 s2 a2 (by omega),
        retryLoop_exn execute 3 0 3 msg hek]

/-- Witness for C5: an adapter that always returns a retryable failure is
called 4 times and its last result is returned unchanged. -/
theorem c5_execute_with_retry_spec_witness :
    Tools.execute_with_retry
      (fun _ => .ok { success := false, error := some "transient glitch",
                      retry_allowed := true }) =
      ({ success := false, error := some "transient glitch",
         retry_allowed := true }, 4) :=
  (c5_execute_with_retry_spec _).2.1 _ (fun _ _ => rfl) rfl

/-- C9 (counterexample): a failure of the embedding call - which is part
of the retrieval stage - propagates out of `retrieve` instead of
producing the empty list, because the embedding happens before the `try`
block. -/
theorem c9_counterexample :
    Retriever.retrieve (.error "embedding provider error")
        (fun _ => .ok { ids := [], documents := [], metadatas := [],
                        distances := [] }) =
      .error "embedding provider error" ∧
    Retriever.retrieve (.error "embedding provider error")
        (fun _ => .ok { ids := [], documents := [], metadatas := [],
                        distances := [] }) ≠
      .ok [] := by
  refine ⟨rfl, fun h => ?_⟩
  exact Except.noConfusion h

/-- C9 (amended): a failure raised by the vector-store query is caught
and degraded to the empty evidence list, but a failure of the embedding
call (made before the `try` block) propagates to the caller. -/
theorem c9_store_failure_degrades (query_embedding : List ℚ)
    (queryStore : List ℚ → Except String Retriever.QueryResults) :
    (∀ msg, queryStore query_embedding = .error msg →
      Retriever.retrieve (.ok query_embedding) queryStore = .ok []) ∧
    (∀ msg, Retriever.retrieve (.error msg) queryStore = .error msg) := by
  constructor
  · intro msg h
    simp [Retriever.retrieve, h]
  · intro msg
    rfl

/-- Witness for the amended C9 at concrete inputs. -/
theorem c9_store_failure_degrades_witness :
    Retriever.retrieve (.ok [1/2, 1/3]) (fun _ => .error "store down") =
      .ok [] :=
  (c9_store_failure_degrades [1/2, 1/3] (fun _ => .error "store down")).1
    "store down" rfl

end RealAgent
